import Mathlib

/-!
Shallow embedding of qdbmp.c (rodb70/qdbmp), a BMP image codec.

Modelling conventions:
* Machine integers are `Nat` with explicit `% 4294967296` where the C's
  `uint32_t` arithmetic can wrap.  The signed loop counter `int idx` of
  `BMP_ReadFile` / `BMP_WriteFile` is modelled as `Int`; its initial value is
  obtained from the C's `uint32_t` expression `(Height - 1) * Width` via the
  two's-complement conversion `toInt32`.
* A file/stream is a `List Nat` of bytes.  `fread(p, 1, n, f)` returning fewer
  than `n` items is modelled as `n` exceeding the remaining list length; a
  stream read consumes `min n remaining` bytes, exactly as a `FILE*` does.
* `malloc` never fails in the model (allocation-failure paths are out of
  scope) and freshly allocated memory is modelled as zero bytes.
* Pixel and palette buffers are modelled as total functions `Nat → Nat`
  (byte at flat offset), so the C's unchecked pointer writes are total.
* The write sink (`fwrite`) accepts every byte: each `fwrite(p, 1, n, f)`
  returns `n`.  `BMP_WriteFile`'s own return-value checks are kept verbatim.
* Output parameters (`uint8_t *r` etc.) are modelled as `Option Nat`:
  `none` is a NULL pointer, `some v` a pointer whose pointee currently
  holds `v`.  A function writes through a pointer by replacing the payload.
-/

/-- Status codes of qdbmp (order of `BMP_ERROR_STRING`). -/
inductive BMP_STATUS where
  | BMP_OK
  | BMP_ERROR
  | BMP_OUT_OF_MEMORY
  | BMP_IO_ERROR
  | BMP_FILE_NOT_FOUND
  | BMP_FILE_NOT_SUPPORTED
  | BMP_FILE_INVALID
  | BMP_INVALID_ARGUMENT
  | BMP_TYPE_MISMATCH
deriving DecidableEq, Repr

/-- The `BMP_Header` struct: all fields are unsigned machine integers,
modelled as `Nat`. -/
structure BMP_Header where
  Magic : Nat
  FileSize : Nat
  Reserved1 : Nat
  Reserved2 : Nat
  DataOffset : Nat
  HeaderSize : Nat
  Width : Nat
  Height : Nat
  Planes : Nat
  BitsPerPixel : Nat
  CompressionType : Nat
  ImageDataSize : Nat
  HPixelsPerMeter : Nat
  VPixelsPerMeter : Nat
  ColorsUsed : Nat
  ColorsRequired : Nat
deriving DecidableEq, Repr

/-- The `struct _BMP` aggregate: header, optional palette (NULL pointer is
`none`), pixel data buffer. -/
structure BMP where
  header : BMP_Header
  palette : Option (Nat → Nat)
  data : Nat → Nat

/-- An all-zero header, used only as a fallback value in projections. -/
def emptyHeader : BMP_Header := ⟨0, 0, 0, 0, 0, 0, 0, 0, 0, 0, 0, 0, 0, 0, 0, 0⟩

/-- Fallback bitmap value for projections out of failed operations. -/
def emptyBMP : BMP := ⟨emptyHeader, none, fun _ => 0⟩

/-- `Readuint16_t`: two bytes, little-endian, from the stream. -/
def Readuint16_t : List Nat → Option (Nat × List Nat)
  | b0 :: b1 :: rest => some (b1 * 256 + b0, rest)
  | _ => none

/-- `Readuint32_t`: four bytes, little-endian, from the stream. -/
def Readuint32_t : List Nat → Option (Nat × List Nat)
  | b0 :: b1 :: b2 :: b3 :: rest => some (((b3 * 256 + b2) * 256 + b1) * 256 + b0, rest)
  | _ => none

/-- `Writeuint16_t`: the two little-endian bytes of `x & 0xffff`. -/
def Writeuint16_t (x : Nat) : List Nat := [x % 256, x / 256 % 256]

/-- `Writeuint32_t`: the four little-endian bytes of `x & 0xffffffff`. -/
def Writeuint32_t (x : Nat) : List Nat :=
  [x % 256, x / 256 % 256, x / 65536 % 256, x / 16777216 % 256]

/-- `ReadHeader`: 16 sequential fixed-width little-endian reads in field
order.  Any short read fails the whole header read. -/
def ReadHeader (s : List Nat) : Option (BMP_Header × List Nat) :=
  match Readuint16_t s with
  | none => none
  | some (magic, s1) =>
  match Readuint32_t s1 with
  | none => none
  | some (fileSize, s2) =>
  match Readuint16_t s2 with
  | none => none
  | some (res1, s3) =>
  match Readuint16_t s3 with
  | none => none
  | some (res2, s4) =>
  match Readuint32_t s4 with
  | none => none
  | some (dataOffset, s5) =>
  match Readuint32_t s5 with
  | none => none
  | some (headerSize, s6) =>
  match Readuint32_t s6 with
  | none => none
  | some (width, s7) =>
  match Readuint32_t s7 with
  | none => none
  | some (height, s8) =>
  match Readuint16_t s8 with
  | none => none
  | some (planes, s9) =>
  match Readuint16_t s9 with
  | none => none
  | some (bitsPerPixel, s10) =>
  match Readuint32_t s10 with
  | none => none
  | some (compressionType, s11) =>
  match Readuint32_t s11 with
  | none => none
  | some (imageDataSize, s12) =>
  match Readuint32_t s12 with
  | none => none
  | some (hppm, s13) =>
  match Readuint32_t s13 with
  | none => none
  | some (vppm, s14) =>
  match Readuint32_t s14 with
  | none => none
  | some (colorsUsed, s15) =>
  match Readuint32_t s15 with
  | none => none
  | some (colorsRequired, s16) =>
  some (⟨magic, fileSize, res1, res2, dataOffset, headerSize, width, height, planes,
         bitsPerPixel, compressionType, imageDataSize, hppm, vppm, colorsUsed,
         colorsRequired⟩, s16)

/-- `WriteHeader`: 16 sequential fixed-width little-endian writes in field
order (the sink accepts every byte, so this always succeeds). -/
def WriteHeader (h : BMP_Header) : List Nat :=
  Writeuint16_t h.Magic ++ Writeuint32_t h.FileSize ++ Writeuint16_t h.Reserved1 ++
  Writeuint16_t h.Reserved2 ++ Writeuint32_t h.DataOffset ++ Writeuint32_t h.HeaderSize ++
  Writeuint32_t h.Width ++ Writeuint32_t h.Height ++ Writeuint16_t h.Planes ++
  Writeuint16_t h.BitsPerPixel ++ Writeuint32_t h.CompressionType ++
  Writeuint32_t h.ImageDataSize ++ Writeuint32_t h.HPixelsPerMeter ++
  Writeuint32_t h.VPixelsPerMeter ++ Writeuint32_t h.ColorsUsed ++
  Writeuint32_t h.ColorsRequired

/-- Two's-complement reinterpretation of a `uint32_t` value as a 32-bit
signed `int`, after reduction mod 2^32. -/
def toInt32 (n : Nat) : Int :=
  if n % 4294967296 < 2147483648 then ((n % 4294967296 : Nat) : Int)
  else ((n % 4294967296 : Nat) : Int) - 4294967296

/-- The initial value of the row loop counter in `BMP_ReadFile` /
`BMP_WriteFile`: the `uint32_t` expression `(Height - 1) * Width`
converted to a signed `int`. -/
def decodeIdx0 (h : BMP_Header) : Int :=
  toInt32 ((h.Height + 4294967295) % 4294967296 * h.Width)

/-- The sequence of buffer offsets the row loop visits: `n, n - W, …, down
to ≥ 0`, where `n` is the (non-negative) initial counter and `W > 0` the
per-iteration decrement. -/
def rowOffsets (n W : Nat) : List Nat :=
  (List.range (n / W + 1)).map (fun j => n - j * W)

/-- Overwrite `bytes.length` bytes of the buffer starting at `off`. -/
def writeAt (buf : Nat → Nat) (off : Nat) (bytes : List Nat) : Nat → Nat :=
  fun i => if off ≤ i ∧ i < off + bytes.length then bytes.getD (i - off) 0 else buf i

/-- One pass of `BMP_ReadFile`'s row loop: at each offset read `W` bytes
into the buffer (failing like `fread != Width` on a short read), then, when
`W` is not a multiple of 4, consume up to `4 - W % 4` padding bytes whose
read result is ignored (`(void)rslt_read`). -/
def readRows : List Nat → Nat → (Nat → Nat) → List Nat → Option ((Nat → Nat) × List Nat)
  | [], _, buf, s => some (buf, s)
  | o :: rest, W, buf, s =>
    if s.length < W then none
    else
      readRows rest W (writeAt buf o (s.take W))
        (if W % 4 ≠ 0 then (s.drop W).drop (4 - W % 4) else s.drop W)

/-- The palette step of `BMP_ReadFile`: for 8 BPP read exactly 1024 bytes
(short read is an error); otherwise the palette stays NULL. -/
def paletteStep (h : BMP_Header) (s : List Nat) : Option (Option (Nat → Nat) × List Nat) :=
  if h.BitsPerPixel = 8 then
    if 1024 ≤ s.length then some (some (fun i => (s.take 1024).getD i 0), s.drop 1024)
    else none
  else some (none, s)

/-- Result of `BMP_ReadFile`: the C function either never returns (its row
loop does not terminate when `Width = 0` and the counter starts ≥ 0),
returns NULL with an error code, or returns a bitmap. -/
inductive DecodeResult where
  | diverges
  | fails (e : BMP_STATUS)
  | ok (b : BMP)

/-- `BMP_ReadFile` on a byte stream: header read and magic check, supported
variant check, palette read for 8 BPP, then the row loop reading `Width`
bytes per iteration at offsets `(Height-1)*Width, …, 0`. -/
def BMP_ReadFile (s : List Nat) : DecodeResult :=
  match ReadHeader s with
  | none => .fails .BMP_FILE_INVALID
  | some (h, s1) =>
    if h.Magic ≠ 0x4D42 then .fails .BMP_FILE_INVALID
    else if (h.BitsPerPixel ≠ 32 ∧ h.BitsPerPixel ≠ 24 ∧ h.BitsPerPixel ≠ 8) ∨
            h.CompressionType ≠ 0 ∨ h.HeaderSize ≠ 40 then .fails .BMP_FILE_NOT_SUPPORTED
    else
      match paletteStep h s1 with
      | none => .fails .BMP_FILE_INVALID
      | some (pal, s2) =>
        if decodeIdx0 h < 0 then .ok ⟨h, pal, fun _ => 0⟩
        else if h.Width = 0 then .diverges
        else
          match readRows (rowOffsets (decodeIdx0 h).toNat h.Width) h.Width (fun _ => 0) s2 with
          | none => .fails .BMP_FILE_INVALID
          | some (buf, _) => .ok ⟨h, pal, buf⟩

/-- One pass of `BMP_WriteFile`'s row loop: at each offset emit `W` bytes
of the buffer; the code then compares the `fwrite` return count (`W`, since
the sink accepts everything) against `ImageDataSize` and stops with
`BMP_IO_ERROR` on mismatch; otherwise it emits `4 - W % 4` zero padding
bytes when `W` is not a multiple of 4 and continues. -/
def encodeRows : List Nat → Nat → Nat → (Nat → Nat) → List Nat → List Nat × BMP_STATUS
  | [], _, _, _, acc => (acc, .BMP_OK)
  | o :: rest, W, ids, data, acc =>
    if W ≠ ids then (acc ++ (List.range W).map (fun i => data (o + i)), .BMP_IO_ERROR)
    else
      encodeRows rest W ids data
        ((acc ++ (List.range W).map (fun i => data (o + i))) ++
          (if W % 4 ≠ 0 then List.replicate (4 - W % 4) 0 else []))

/-- `BMP_WriteFile` against a sink that accepts every byte: header bytes,
palette bytes when a palette is present, then the row loop.  Returns the
bytes pushed to the sink together with the final `BMP_LAST_ERROR_CODE`;
`none` models the non-terminating `Width = 0` loop. -/
def BMP_WriteFile (b : BMP) : Option (List Nat × BMP_STATUS) :=
  let pb := WriteHeader b.header ++
    (match b.palette with | some p => (List.range 1024).map p | none => [])
  if decodeIdx0 b.header < 0 then some (pb, .BMP_OK)
  else if b.header.Width = 0 then none
  else some (encodeRows (rowOffsets (decodeIdx0 b.header).toNat b.header.Width)
    b.header.Width b.header.ImageDataSize b.data pb)

/-- `BMP_Create`: argument checks, then the header defaults and the
`uint32_t` row/size arithmetic of the C, with zero-filled buffers. -/
def BMP_Create (width height depth : Nat) : Except BMP_STATUS BMP :=
  if height = 0 ∨ width = 0 then .error .BMP_INVALID_ARGUMENT
  else if depth ≠ 8 ∧ depth ≠ 24 ∧ depth ≠ 32 then .error .BMP_FILE_NOT_SUPPORTED
  else
    .ok
      { header :=
        { Magic := 0x4D42
          FileSize := (bytesPerRowC width depth * height % 4294967296 + 54 +
            (if depth = 8 then 1024 else 0)) % 4294967296
          Reserved1 := 0
          Reserved2 := 0
          DataOffset := 54 + (if depth = 8 then 1024 else 0)
          HeaderSize := 40
          Width := width
          Height := height
          Planes := 1
          BitsPerPixel := depth
          CompressionType := 0
          ImageDataSize := bytesPerRowC width depth * height % 4294967296
          HPixelsPerMeter := 0
          VPixelsPerMeter := 0
          ColorsUsed := 0
          ColorsRequired := 0 }
        palette := if depth = 8 then some (fun _ => 0) else none
        data := fun _ => 0 }
where
  /-- `width * bytes_per_pixel` in `uint32_t`. -/
  rawRowC (w d : Nat) : Nat := w * (d / 8) % 4294967296
  /-- `bytes_per_row` after the round-up-to-multiple-of-4 step, in `uint32_t`. -/
  bytesPerRowC (w d : Nat) : Nat :=
    (rawRowC w d + (if rawRowC w d % 4 ≠ 0 then 4 - rawRowC w d % 4 else 0)) % 4294967296

/-- The bitmap produced by a successful `BMP_Create` (fallback `emptyBMP`
on the error paths, used only to build concrete test bitmaps). -/
def mkCreated (width height depth : Nat) : BMP :=
  match BMP_Create width height depth with
  | .ok b => b
  | .error _ => emptyBMP

/-- `bytes_per_row` as recomputed by every pixel accessor:
`ImageDataSize / Height`. -/
def bytesPerRowOf (bmp : BMP) : Nat := bmp.header.ImageDataSize / bmp.header.Height

/-- Palette buffer dereference; a NULL palette reads as zero (the C would
fault, but no reachable bitmap with 8 BPP lacks a palette). -/
def palFun (bmp : BMP) : Nat → Nat := bmp.palette.getD (fun _ => 0)

/-- Pixel byte offset used by `BMP_GetPixelRGB` / `BMP_SetPixelRGB`:
`(Height - y - 1) * bytes_per_row + x * bytes_per_pixel`. -/
def pixOffRGB (bmp : BMP) (x y : Nat) : Nat :=
  (bmp.header.Height - y - 1) * bytesPerRowOf bmp + x * (bmp.header.BitsPerPixel / 8)

/-- Pixel byte offset used by `BMP_GetPixelIndex` / `BMP_SetPixelIndex`:
`(Height - y - 1) * bytes_per_row + x`. -/
def pixOffIdx (bmp : BMP) (x y : Nat) : Nat :=
  (bmp.header.Height - y - 1) * bytesPerRowOf bmp + x

/-- The byte `*(pixel + i)` that `BMP_GetPixelRGB` reads: for 8 BPP the
pixel byte is first resolved through the palette (`Palette + *pixel * 4`). -/
def rgbByte (bmp : BMP) (x y i : Nat) : Nat :=
  if bmp.header.BitsPerPixel = 8 then palFun bmp (bmp.data (pixOffRGB bmp x y) * 4 + i)
  else bmp.data (pixOffRGB bmp x y + i)

/-- `BMP_GetPixelRGB`: bounds check, then (with no depth gate) read the
B,G,R bytes, through the palette for 8 BPP, into the non-NULL output
pointers. -/
def BMP_GetPixelRGB (bmp : BMP) (x y : Nat) (r g b : Option Nat) :
    (Option Nat × Option Nat × Option Nat) × BMP_STATUS :=
  if bmp.header.Width ≤ x ∨ bmp.header.Height ≤ y then ((r, g, b), .BMP_INVALID_ARGUMENT)
  else
    ((r.map (fun _ => rgbByte bmp x y 2), g.map (fun _ => rgbByte bmp x y 1),
      b.map (fun _ => rgbByte bmp x y 0)), .BMP_OK)

/-- `BMP_SetPixelRGB`: bounds check, depth gate (24/32 only), then write
the three bytes in B,G,R order at the pixel offset. -/
def BMP_SetPixelRGB (bmp : BMP) (x y r g b : Nat) : BMP × BMP_STATUS :=
  if bmp.header.Width ≤ x ∨ bmp.header.Height ≤ y then (bmp, .BMP_INVALID_ARGUMENT)
  else if bmp.header.BitsPerPixel ≠ 24 ∧ bmp.header.BitsPerPixel ≠ 32 then
    (bmp, .BMP_TYPE_MISMATCH)
  else
    ({ bmp with data := fun i =>
        if i = pixOffRGB bmp x y + 2 then r
        else if i = pixOffRGB bmp x y + 1 then g
        else if i = pixOffRGB bmp x y then b
        else bmp.data i }, .BMP_OK)

/-- `BMP_GetPixelIndex`: bounds check, depth gate (8 only), then read the
stored index byte into the output pointer when it is non-NULL. -/
def BMP_GetPixelIndex (bmp : BMP) (x y : Nat) (val : Option Nat) :
    Option Nat × BMP_STATUS :=
  if bmp.header.Width ≤ x ∨ bmp.header.Height ≤ y then (val, .BMP_INVALID_ARGUMENT)
  else if bmp.header.BitsPerPixel ≠ 8 then (val, .BMP_TYPE_MISMATCH)
  else (val.map (fun _ => bmp.data (pixOffIdx bmp x y)), .BMP_OK)

/-- `BMP_SetPixelIndex`: bounds check, depth gate (8 only), then write the
index byte. -/
def BMP_SetPixelIndex (bmp : BMP) (x y v : Nat) : BMP × BMP_STATUS :=
  if bmp.header.Width ≤ x ∨ bmp.header.Height ≤ y then (bmp, .BMP_INVALID_ARGUMENT)
  else if bmp.header.BitsPerPixel ≠ 8 then (bmp, .BMP_TYPE_MISMATCH)
  else
    ({ bmp with data := fun i => if i = pixOffIdx bmp x y then v else bmp.data i }, .BMP_OK)

/-- `BMP_GetPaletteColor`: depth gate (8 only), then read entry bytes
`index*4 + 2, +1, +0` (R,G,B of a B,G,R,reserved entry) into the non-NULL
output pointers. -/
def BMP_GetPaletteColor (bmp : BMP) (index : Nat) (r g b : Option Nat) :
    (Option Nat × Option Nat × Option Nat) × BMP_STATUS :=
  if bmp.header.BitsPerPixel ≠ 8 then ((r, g, b), .BMP_TYPE_MISMATCH)
  else
    ((r.map (fun _ => palFun bmp (index * 4 + 2)), g.map (fun _ => palFun bmp (index * 4 + 1)),
      b.map (fun _ => palFun bmp (index * 4 + 0))), .BMP_OK)

/-- `BMP_SetPaletteColor`: depth gate (8 only), then write entry bytes
`index*4 + 2, +1, +0` (reserved byte at `+3` untouched). -/
def BMP_SetPaletteColor (bmp : BMP) (index r g b : Nat) : BMP × BMP_STATUS :=
  if bmp.header.BitsPerPixel ≠ 8 then (bmp, .BMP_TYPE_MISMATCH)
  else
    ({ bmp with palette := some (fun i =>
        if i = index * 4 + 2 then r
        else if i = index * 4 + 1 then g
        else if i = index * 4 then b
        else palFun bmp i) }, .BMP_OK)

/-- Whether `BMP_ReadFile` returned a bitmap. -/
def decodeIsOk (s : List Nat) : Bool :=
  match BMP_ReadFile s with
  | .ok _ => true
  | _ => false

/-- The header of the decoded bitmap (`emptyHeader` when decode failed). -/
def decodeHeader (s : List Nat) : BMP_Header :=
  match BMP_ReadFile s with
  | .ok b => b.header
  | _ => emptyHeader

/-- Byte `i` of the decoded pixel buffer (0 when decode failed). -/
def decodeData (s : List Nat) (i : Nat) : Nat :=
  match BMP_ReadFile s with
  | .ok b => b.data i
  | _ => 0

/-- The stream `BMP_WriteFile` pushed to the sink. -/
def encStream (b : BMP) : List Nat := ((BMP_WriteFile b).getD ([], .BMP_OK)).1

/-- The status `BMP_WriteFile` left in `BMP_LAST_ERROR_CODE`. -/
def encStatus (b : BMP) : BMP_STATUS := ((BMP_WriteFile b).getD ([], .BMP_OK)).2

/-- The row stride the specification prescribes:
`ceil(width * BytesPerPixel / 4) * 4`, in exact arithmetic. -/
def specRowStride (w d : Nat) : Nat := (w * (d / 8) + 3) / 4 * 4

/-- Modelled from the spec (§3/§4.5 formulas): the bitmap the specification
says `create(width, height, depth)` returns, with `RowStride`,
`ImageDataSize`, `DataOffset` and `FileSize` computed in exact arithmetic. -/
def createSpec (w h d : Nat) : BMP :=
  { header :=
    { Magic := 0x4D42
      FileSize := specRowStride w d * h + 54 + (if d = 8 then 1024 else 0)
      Reserved1 := 0
      Reserved2 := 0
      DataOffset := 54 + (if d = 8 then 1024 else 0)
      HeaderSize := 40
      Width := w
      Height := h
      Planes := 1
      BitsPerPixel := d
      CompressionType := 0
      ImageDataSize := specRowStride w d * h
      HPixelsPerMeter := 0
      VPixelsPerMeter := 0
      ColorsUsed := 0
      ColorsRequired := 0 }
    palette := if d = 8 then some (fun _ => 0) else none
    data := fun _ => 0 }

/-- Whether `BMP_Create` returned a bitmap. -/
def createIsOk (w h d : Nat) : Bool :=
  match BMP_Create w h d with
  | .ok _ => true
  | .error _ => false

/-- A 1×1 24 BPP bitmap with pixel (0,0) set to RGB (1,2,3). -/
def c1bmp : BMP := (BMP_SetPixelRGB (mkCreated 1 1 24) 0 0 1 2 3).1

/-- The byte stream `BMP_WriteFile` produces for `c1bmp`. -/
def c1stream : List Nat := encStream c1bmp

/-- The bitmap obtained by decoding `c1stream`. -/
def c1decoded : BMP :=
  match BMP_ReadFile c1stream with
  | .ok b => b
  | _ => emptyBMP

/-- Header of a 1×2, 24 BPP image laid out per the section-6 table
(RowStride 4, ImageDataSize 8, FileSize 62). -/
def c2hdr : BMP_Header := ⟨0x4D42, 62, 0, 0, 54, 40, 1, 2, 1, 24, 0, 8, 0, 0, 0, 0⟩

/-- A fully valid 62-byte stream for `c2hdr`: bottom row B,G,R = 10,20,30
plus one padding byte, then top row B,G,R = 40,50,60 plus padding. -/
def c2stream : List Nat := WriteHeader c2hdr ++ [10, 20, 30, 0, 40, 50, 60, 0]

/-- A fresh 1×1 24 BPP bitmap, the encode input for the C3 evaluation. -/
def c3bmp : BMP := mkCreated 1 1 24

/-- Header of a 1×1, 24 BPP image declaring ImageDataSize 4. -/
def c4hdr : BMP_Header := ⟨0x4D42, 58, 0, 0, 54, 40, 1, 1, 1, 24, 0, 4, 0, 0, 0, 0⟩

/-- A 55-byte stream: valid header declaring 4 data bytes but carrying only
one (the whole row payload minus its padding is missing 3 of 4 bytes). -/
def c4stream : List Nat := WriteHeader c4hdr ++ [10]

/-- A header whose magic field is zero. -/
def c4wBadMagicHdr : BMP_Header := ⟨0, 58, 0, 0, 54, 40, 1, 1, 1, 24, 0, 4, 0, 0, 0, 0⟩

/-- A header declaring the unsupported depth 16. -/
def c4wUnsupportedHdr : BMP_Header := ⟨0x4D42, 0, 0, 0, 54, 40, 1, 1, 1, 16, 0, 0, 0, 0, 0, 0⟩

/-- A valid 8 BPP header; a stream holding it and nothing else truncates
the 1024-byte palette. -/
def c4wPalTruncHdr : BMP_Header := ⟨0x4D42, 0, 0, 0, 1078, 40, 1, 1, 1, 8, 0, 4, 0, 0, 0, 0⟩

/-- A valid 24 BPP header; a stream holding it and nothing else truncates
the first row's pixel bytes. -/
def c4wRowTruncHdr : BMP_Header := ⟨0x4D42, 58, 0, 0, 54, 40, 1, 1, 1, 24, 0, 4, 0, 0, 0, 0⟩

/-- Header of a 1×1, 24 BPP image whose DataOffset field is 0 instead
of 54. -/
def c6hdr : BMP_Header := ⟨0x4D42, 62, 0, 0, 0, 40, 1, 1, 1, 24, 0, 4, 0, 0, 0, 0⟩

/-- A stream for `c6hdr` with a full 4-byte pixel row. -/
def c6stream : List Nat := WriteHeader c6hdr ++ [1, 2, 3, 0]

/-- The bitmap obtained by decoding `c6stream`. -/
def c6decoded : BMP :=
  match BMP_ReadFile c6stream with
  | .ok b => b
  | _ => emptyBMP

/-! ## Helper lemmas -/

theorem bytesPerRowC_eq_specRowStride (w d : Nat) (hfit : w * (d / 8) + 3 < 4294967296) :
    BMP_Create.bytesPerRowC w d = specRowStride w d := by
  simp only [BMP_Create.bytesPerRowC, BMP_Create.rawRowC, specRowStride]
  by_cases h4 : w * (d / 8) % 4294967296 % 4 = 0 <;> simp [h4] <;> omega

theorem BMP_Create_eq_createSpec (w h d : Nat) (hw : 0 < w) (hh : 0 < h)
    (hd : d = 8 ∨ d = 24 ∨ d = 32)
    (hfit : specRowStride w d * h + 1078 < 4294967296) :
    BMP_Create w h d = .ok (createSpec w h d) := by
  have hn : w * (d / 8) ≤ specRowStride w d := by
    simp only [specRowStride]; omega
  have hsp : specRowStride w d ≤ specRowStride w d * h := Nat.le_mul_of_pos_right _ hh
  have hb := bytesPerRowC_eq_specRowStride w d (by omega)
  have hids : specRowStride w d * h < 4294967296 := by omega
  have hfs : specRowStride w d * h + 54 + (if d = 8 then 1024 else 0) < 4294967296 := by
    by_cases h8 : d = 8
    · rw [if_pos h8]; omega
    · rw [if_neg h8]; omega
  simp only [BMP_Create, createSpec]
  rw [if_neg (by omega), if_neg (by omega), hb, Nat.mod_eq_of_lt hids, Nat.mod_eq_of_lt hfs]

/-! ## C1 -/

/-- C1: the claim says `decode(encode(B)) == B` for every validly
constructed bitmap of depth 8/24/32 with dimensions in 1..512.  The code
violates it: for the 1×1 24 BPP bitmap `c1bmp` whose only pixel is RGB
(1,2,3), `BMP_WriteFile` emits one data byte per row (`Width` bytes, not
`Width * BytesPerPixel`) and flags `BMP_IO_ERROR` via its
`fwrite != ImageDataSize` comparison, and decoding the produced stream
yields pixel RGB (0,0,3) ≠ (1,2,3). -/
theorem c1_roundtrip_failure :
    (BMP_GetPixelRGB c1bmp 0 0 (some 0) (some 0) (some 0)).1 = (some 1, some 2, some 3) ∧
    encStatus c1bmp = .BMP_IO_ERROR ∧
    decodeIsOk c1stream = true ∧
    (BMP_GetPixelRGB c1decoded 0 0 (some 0) (some 0) (some 0)).1 = (some 0, some 0, some 3) :=
  ⟨rfl, rfl, rfl, rfl⟩

/-! ## C2 -/

/-- C2: the claim says a successful decode of a section-6 stream stores
pixel (x,y)'s file bytes at buffer offset `(Height-1-y)*RowStride +
x*BytesPerPixel`, reading `Width*BytesPerPixel` meaningful bytes per row.
The code violates it: decoding the fully valid 1×2 24 BPP stream
`c2stream` (RowStride 4, bottom row starting 10, top row starting 40)
reads one byte per row at offsets `Width * row`, so byte 40 lands at
offset 0 (the claim places byte 10 there, and 40 at offset 4) and byte 10
lands at offset 1. -/
theorem c2_row_placement_failure :
    decodeIsOk c2stream = true ∧
    (decodeHeader c2stream).ImageDataSize / (decodeHeader c2stream).Height = 4 ∧
    decodeData c2stream 0 = 40 ∧
    decodeData c2stream 1 = 10 :=
  ⟨rfl, rfl, rfl, rfl⟩

/-! ## C3 -/

/-- C3: the claim says encode signals IOError iff some sink write fails,
and in particular ends with status OK when the sink accepts every byte.
The code violates it: encoding the fresh 1×1 24 BPP bitmap `c3bmp`
against a sink that accepts everything ends with `BMP_IO_ERROR` (the row
loop compares the per-row `fwrite` count `Width = 1` against
`ImageDataSize = 4`) after pushing only the 54 header bytes and a single
data byte. -/
theorem c3_encode_status_failure :
    encStatus c3bmp = .BMP_IO_ERROR ∧ (encStream c3bmp).length = 55 :=
  ⟨rfl, rfl⟩

/-! ## C5 -/

/-- C5 counterexample: the claim's RowStride/ImageDataSize formulas are
stated without any bound on the dimensions, but `BMP_Create` computes them
in `uint32_t`: at width 2^30, depth 32, the create succeeds and stores
ImageDataSize 0, while the claim's formula `ceil(width*4/4)*4 * height`
gives 2^32. -/
theorem c5_create_overflow_counterexample :
    createIsOk 1073741824 1 32 = true ∧
    (mkCreated 1073741824 1 32).header.ImageDataSize = 0 ∧
    specRowStride 1073741824 32 * 1 = 4294967296 :=
  ⟨rfl, rfl, rfl⟩

/-- C5 (amended): `BMP_Create` fails with `BMP_INVALID_ARGUMENT` when
width or height is zero, fails with `BMP_FILE_NOT_SUPPORTED` when the
depth is not 8/24/32, and otherwise — provided the 32-bit size arithmetic
does not wrap (`RowStride*height + 1078 < 2^32`) — returns exactly the
bitmap of the §3 formulas: RowStride `ceil(width*BytesPerPixel/4)*4`,
ImageDataSize `RowStride*height`, DataOffset `54 + (1024 if depth==8)`,
FileSize `DataOffset + ImageDataSize`, default header fields, zero-filled
pixel buffer, and a zero-filled palette exactly when depth is 8 (all
packaged in `createSpec`). -/
theorem c5_create_contract :
    (∀ w h d : Nat, (w = 0 ∨ h = 0) → BMP_Create w h d = .error .BMP_INVALID_ARGUMENT) ∧
    (∀ w h d : Nat, 0 < w → 0 < h → d ≠ 8 → d ≠ 24 → d ≠ 32 →
       BMP_Create w h d = .error .BMP_FILE_NOT_SUPPORTED) ∧
    (∀ w h d : Nat, 0 < w → 0 < h → (d = 8 ∨ d = 24 ∨ d = 32) →
       specRowStride w d * h + 1078 < 4294967296 →
       BMP_Create w h d = .ok (createSpec w h d)) := by
  refine ⟨fun w h d hz => ?_, fun w h d hw hh h8 h24 h32 => ?_, fun w h d hw hh hd hfit => ?_⟩
  · simp only [BMP_Create]
    rw [if_pos (by omega)]
  · simp only [BMP_Create]
    rw [if_neg (by omega), if_pos ⟨h8, h24, h32⟩]
  · exact BMP_Create_eq_createSpec w h d hw hh hd hfit

/-- C5 witness: the three clauses of `c5_create_contract` applied at
concrete inputs, including the spec's own example width=5, depth=8
(RowStride 8, ImageDataSize 24). -/
theorem c5_create_contract_witness :
    BMP_Create 0 5 24 = .error .BMP_INVALID_ARGUMENT ∧
    BMP_Create 4 4 16 = .error .BMP_FILE_NOT_SUPPORTED ∧
    BMP_Create 5 3 8 = .ok (createSpec 5 3 8) :=
  ⟨c5_create_contract.1 0 5 24 (Or.inl rfl),
   c5_create_contract.2.1 4 4 16 (by decide) (by decide) (by decide) (by decide) (by decide),
   c5_create_contract.2.2 5 3 8 (by decide) (by decide) (Or.inl rfl) (by decide)⟩

/-! ## C4 -/

/-- C4 counterexample: the claim says a pixel payload truncated relative
to the declared ImageDataSize yields FileInvalid, and that any short read
in the row loop — including of padding bytes — aborts the decode.  But
`c4stream` is 55 bytes (54 header + 1 data byte) against a declared
ImageDataSize of 4, and it decodes successfully: the row loop only
demands `Width = 1` data bytes per row and ignores the failed padding
read (`(void)rslt_read`). -/
theorem c4_truncated_decode_counterexample :
    decodeIsOk c4stream = true ∧
    c4stream.length = 55 ∧
    (decodeHeader c4stream).ImageDataSize = 4 :=
  ⟨rfl, rfl, rfl⟩

/-- C4 (amended): decode fails with `BMP_FILE_INVALID` when the header
read fails or the magic is not 0x4D42; with `BMP_FILE_NOT_SUPPORTED` when
the depth is not 8/24/32, the compression type is nonzero, or the header
size is not 40; with `BMP_FILE_INVALID` when the depth-8 palette is
truncated; and with `BMP_FILE_INVALID` when some row's `Width` pixel-data
bytes are truncated.  Short reads of padding bytes are ignored, so a
stream shorter than its declared ImageDataSize can still decode (the
payload check is `Width` bytes per row, not ImageDataSize). -/
theorem c4_decode_error_paths :
    (∀ s, ReadHeader s = none → BMP_ReadFile s = .fails .BMP_FILE_INVALID) ∧
    (∀ s h rest, ReadHeader s = some (h, rest) → h.Magic ≠ 0x4D42 →
       BMP_ReadFile s = .fails .BMP_FILE_INVALID) ∧
    (∀ s h rest, ReadHeader s = some (h, rest) → h.Magic = 0x4D42 →
       ((h.BitsPerPixel ≠ 32 ∧ h.BitsPerPixel ≠ 24 ∧ h.BitsPerPixel ≠ 8) ∨
         h.CompressionType ≠ 0 ∨ h.HeaderSize ≠ 40) →
       BMP_ReadFile s = .fails .BMP_FILE_NOT_SUPPORTED) ∧
    (∀ s h rest, ReadHeader s = some (h, rest) → h.Magic = 0x4D42 →
       h.BitsPerPixel = 8 → h.CompressionType = 0 → h.HeaderSize = 40 →
       rest.length < 1024 → BMP_ReadFile s = .fails .BMP_FILE_INVALID) ∧
    (∀ s h rest pal s2, ReadHeader s = some (h, rest) → h.Magic = 0x4D42 →
       ¬((h.BitsPerPixel ≠ 32 ∧ h.BitsPerPixel ≠ 24 ∧ h.BitsPerPixel ≠ 8) ∨
         h.CompressionType ≠ 0 ∨ h.HeaderSize ≠ 40) →
       paletteStep h rest = some (pal, s2) →
       ¬decodeIdx0 h < 0 → h.Width ≠ 0 →
       readRows (rowOffsets (decodeIdx0 h).toNat h.Width) h.Width (fun _ => 0) s2 = none →
       BMP_ReadFile s = .fails .BMP_FILE_INVALID) := by
  refine ⟨fun s hrh => ?_,
          fun s h rest hrh hmg => ?_,
          fun s h rest hrh hmg hbad => ?_,
          fun s h rest hrh hmg h8 hcm hhs hlen => ?_,
          fun s h rest pal s2 hrh hmg hok hpal hidx hw hrows => ?_⟩
  · simp only [BMP_ReadFile, hrh]
  · simp only [BMP_ReadFile, hrh]
    rw [if_pos hmg]
  · simp only [BMP_ReadFile, hrh]
    rw [if_neg (by simp [hmg]), if_pos hbad]
  · have hpal : paletteStep h rest = none := by
      simp only [paletteStep]
      rw [if_pos h8, if_neg (by omega)]
    simp only [BMP_ReadFile, hrh, hpal]
    rw [if_neg (by simp [hmg]), if_neg (by omega)]
  · simp only [BMP_ReadFile, hrh, hpal, hrows]
    rw [if_neg (by simp [hmg]), if_neg hok, if_neg hidx, if_neg hw]

/-- C4 witness: the five clauses of `c4_decode_error_paths` applied at
concrete streams: the empty stream, a zero-magic header, a depth-16
header, a depth-8 header with no palette bytes, and a 24 BPP header with
no row bytes. -/
theorem c4_decode_error_paths_witness :
    BMP_ReadFile [] = .fails .BMP_FILE_INVALID ∧
    BMP_ReadFile (WriteHeader c4wBadMagicHdr) = .fails .BMP_FILE_INVALID ∧
    BMP_ReadFile (WriteHeader c4wUnsupportedHdr) = .fails .BMP_FILE_NOT_SUPPORTED ∧
    BMP_ReadFile (WriteHeader c4wPalTruncHdr) = .fails .BMP_FILE_INVALID ∧
    BMP_ReadFile (WriteHeader c4wRowTruncHdr) = .fails .BMP_FILE_INVALID :=
  ⟨c4_decode_error_paths.1 [] rfl,
   c4_decode_error_paths.2.1 (WriteHeader c4wBadMagicHdr) c4wBadMagicHdr [] rfl (by decide),
   c4_decode_error_paths.2.2.1 (WriteHeader c4wUnsupportedHdr) c4wUnsupportedHdr [] rfl rfl
     (by decide),
   c4_decode_error_paths.2.2.2.1 (WriteHeader c4wPalTruncHdr) c4wPalTruncHdr [] rfl rfl rfl rfl
     rfl (by decide),
   c4_decode_error_paths.2.2.2.2 (WriteHeader c4wRowTruncHdr) c4wRowTruncHdr [] none [] rfl rfl
     (by decide) rfl (by decide) (by decide) rfl⟩

/-! ## C6 -/

/-- C6 counterexample: the claim says every bitmap returned by a
successful decode satisfies `DataOffset == 54 + (1024 if depth==8 else
0)` (among other invariants).  But decode never validates `DataOffset`:
`c6stream`, a 24 BPP stream whose DataOffset field is 0, decodes
successfully and the returned bitmap carries `DataOffset = 0 ≠ 54`. -/
theorem c6_decode_unvalidated_counterexample :
    decodeIsOk c6stream = true ∧
    (decodeHeader c6stream).BitsPerPixel = 24 ∧
    (decodeHeader c6stream).DataOffset = 0 :=
  ⟨rfl, rfl, rfl⟩

/-- C6 (amended): every bitmap from a successful `BMP_Create` whose
32-bit size arithmetic does not wrap satisfies all the §3 invariants
(HeaderSize 40, no compression, supported depth, positive dimensions,
DataOffset and ImageDataSize formulas); a bitmap from a successful
`BMP_ReadFile` is only guaranteed the three invariants decode checks —
HeaderSize 40, CompressionType 0, BitsPerPixel ∈ {8,24,32} — since Width,
Height, DataOffset and ImageDataSize are taken from the stream
unvalidated; and no pixel/palette setter ever changes a header field. -/
theorem c6_invariants :
    (∀ w hgt d b, BMP_Create w hgt d = .ok b →
       specRowStride w d * hgt + 1078 < 4294967296 →
       b.header.HeaderSize = 40 ∧ b.header.CompressionType = 0 ∧
       (b.header.BitsPerPixel = 8 ∨ b.header.BitsPerPixel = 24 ∨ b.header.BitsPerPixel = 32) ∧
       0 < b.header.Width ∧ 0 < b.header.Height ∧
       b.header.DataOffset = 54 + (if b.header.BitsPerPixel = 8 then 1024 else 0) ∧
       b.header.ImageDataSize =
         specRowStride b.header.Width b.header.BitsPerPixel * b.header.Height) ∧
    (∀ s b, BMP_ReadFile s = .ok b →
       b.header.HeaderSize = 40 ∧ b.header.CompressionType = 0 ∧
       (b.header.BitsPerPixel = 8 ∨ b.header.BitsPerPixel = 24 ∨ b.header.BitsPerPixel = 32)) ∧
    (∀ b x y r g bl, ((BMP_SetPixelRGB b x y r g bl).1).header = b.header) ∧
    (∀ b x y v, ((BMP_SetPixelIndex b x y v).1).header = b.header) ∧
    (∀ b i r g bl, ((BMP_SetPaletteColor b i r g bl).1).header = b.header) := by
  refine ⟨fun w hgt d b hcr hfit => ?_, fun s b hd => ?_,
          fun b x y r g bl => ?_, fun b x y v => ?_, fun b i r g bl => ?_⟩
  · by_cases hz : hgt = 0 ∨ w = 0
    · simp only [BMP_Create] at hcr
      rw [if_pos hz] at hcr
      exact Except.noConfusion hcr
    · by_cases hdep : d ≠ 8 ∧ d ≠ 24 ∧ d ≠ 32
      · simp only [BMP_Create] at hcr
        rw [if_neg hz, if_pos hdep] at hcr
        exact Except.noConfusion hcr
      · have hw : 0 < w := by omega
        have hh2 : 0 < hgt := by omega
        have hd3 : d = 8 ∨ d = 24 ∨ d = 32 := by omega
        rw [BMP_Create_eq_createSpec w hgt d hw hh2 hd3 hfit] at hcr
        injection hcr with hbe
        subst hbe
        dsimp only [createSpec]
        exact ⟨rfl, rfl, hd3, hw, hh2, rfl, rfl⟩
  · simp only [BMP_ReadFile] at hd
    split at hd
    · exact DecodeResult.noConfusion hd
    · rename_i hh hs1 heq
      split at hd
      · exact DecodeResult.noConfusion hd
      · rename_i hmg
        split at hd
        · exact DecodeResult.noConfusion hd
        · rename_i hok
          split at hd
          · exact DecodeResult.noConfusion hd
          · rename_i pal s2 hpaleq
            split at hd
            · injection hd with hbe
              subst hbe
              dsimp only
              omega
            · split at hd
              · exact DecodeResult.noConfusion hd
              · split at hd
                · exact DecodeResult.noConfusion hd
                · rename_i buf rest hroweq
                  injection hd with hbe
                  subst hbe
                  dsimp only
                  omega
  · simp only [BMP_SetPixelRGB]
    split
    · rfl
    · split <;> rfl
  · simp only [BMP_SetPixelIndex]
    split
    · rfl
    · split <;> rfl
  · simp only [BMP_SetPaletteColor]
    split <;> rfl

/-- C6 witness: the clauses of `c6_invariants` at concrete inputs — a
created 1×2 32 BPP bitmap, the decoded `c6stream` bitmap, and a pixel
write on a 1×1 8 BPP bitmap. -/
theorem c6_invariants_witness :
    (mkCreated 1 2 32).header.HeaderSize = 40 ∧
    (c6decoded.header.HeaderSize = 40 ∧ c6decoded.header.CompressionType = 0 ∧
      (c6decoded.header.BitsPerPixel = 8 ∨ c6decoded.header.BitsPerPixel = 24 ∨
        c6decoded.header.BitsPerPixel = 32)) ∧
    ((BMP_SetPixelIndex (mkCreated 1 1 8) 0 0 3).1).header = (mkCreated 1 1 8).header :=
  ⟨(c6_invariants.1 1 2 32 (mkCreated 1 2 32) rfl (by decide)).1,
   c6_invariants.2.1 c6stream c6decoded rfl,
   c6_invariants.2.2.2.1 (mkCreated 1 1 8) 0 0 3⟩

/-! ## C7 -/

/-- C7: with `x >= Width` or `y >= Height`, each of the four pixel
accessors signals `BMP_INVALID_ARGUMENT` and returns the bitmap and the
output pointees untouched — with no depth hypothesis, since the bounds
check precedes the depth gate and all offset arithmetic. -/
theorem c7_out_of_bounds :
    ∀ bmp x y, bmp.header.Width ≤ x ∨ bmp.header.Height ≤ y →
      (∀ r g b : Option Nat,
         BMP_GetPixelRGB bmp x y r g b = ((r, g, b), .BMP_INVALID_ARGUMENT)) ∧
      (∀ r g b : Nat, BMP_SetPixelRGB bmp x y r g b = (bmp, .BMP_INVALID_ARGUMENT)) ∧
      (∀ v : Option Nat, BMP_GetPixelIndex bmp x y v = (v, .BMP_INVALID_ARGUMENT)) ∧
      (∀ v : Nat, BMP_SetPixelIndex bmp x y v = (bmp, .BMP_INVALID_ARGUMENT)) := by
  intro bmp x y hoob
  refine ⟨fun r g b => ?_, fun r g b => ?_, fun v => ?_, fun v => ?_⟩
  · simp only [BMP_GetPixelRGB, if_pos hoob]
  · simp only [BMP_SetPixelRGB, if_pos hoob]
  · simp only [BMP_GetPixelIndex, if_pos hoob]
  · simp only [BMP_SetPixelIndex, if_pos hoob]

/-- C7 witness: out-of-bounds accesses on concrete bitmaps, including a
depth-8 bitmap passed to `BMP_SetPixelRGB` (whose depth would otherwise
be a TypeMismatch — the bounds check wins). -/
theorem c7_out_of_bounds_witness :
    BMP_SetPixelRGB (mkCreated 2 2 8) 2 0 9 9 9 = (mkCreated 2 2 8, .BMP_INVALID_ARGUMENT) ∧
    BMP_GetPixelIndex (mkCreated 2 2 24) 0 2 (some 7) = (some 7, .BMP_INVALID_ARGUMENT) :=
  ⟨(c7_out_of_bounds (mkCreated 2 2 8) 2 0 (Or.inl (by decide))).2.1 9 9 9,
   (c7_out_of_bounds (mkCreated 2 2 24) 0 2 (Or.inr (by decide))).2.2.1 (some 7)⟩

/-! ## C8 -/

/-- C8: for in-bounds coordinates, `BMP_SetPixelRGB` on a depth-8 bitmap
signals `BMP_TYPE_MISMATCH` and changes nothing; `BMP_GetPixelIndex` and
`BMP_SetPixelIndex` on a depth-24/32 bitmap signal `BMP_TYPE_MISMATCH`
and change nothing; while `BMP_GetPixelRGB` on a depth-8 bitmap succeeds
and coincides with `BMP_GetPaletteColor` applied to the stored index byte
(the get/set asymmetry). -/
theorem c8_depth_gating :
    ∀ bmp x y, x < bmp.header.Width → y < bmp.header.Height →
      (bmp.header.BitsPerPixel = 8 →
        (∀ r g b : Nat, BMP_SetPixelRGB bmp x y r g b = (bmp, .BMP_TYPE_MISMATCH)) ∧
        (∀ r g b : Option Nat,
           BMP_GetPixelRGB bmp x y r g b =
             BMP_GetPaletteColor bmp ((BMP_GetPixelIndex bmp x y (some 0)).1.getD 0) r g b)) ∧
      (bmp.header.BitsPerPixel = 24 ∨ bmp.header.BitsPerPixel = 32 →
        (∀ v : Option Nat, BMP_GetPixelIndex bmp x y v = (v, .BMP_TYPE_MISMATCH)) ∧
        (∀ v : Nat, BMP_SetPixelIndex bmp x y v = (bmp, .BMP_TYPE_MISMATCH))) := by
  intro bmp x y hx hy
  have hoob : ¬(bmp.header.Width ≤ x ∨ bmp.header.Height ≤ y) := by omega
  refine ⟨fun h8 => ⟨fun r g b => ?_, fun r g b => ?_⟩,
          fun hrgb => ⟨fun v => ?_, fun v => ?_⟩⟩
  · simp only [BMP_SetPixelRGB, if_neg hoob]
    rw [if_pos (by omega)]
  · simp only [BMP_GetPixelRGB, BMP_GetPaletteColor, BMP_GetPixelIndex, if_neg hoob,
      rgbByte, pixOffRGB, pixOffIdx, h8]
    norm_num
  · simp only [BMP_GetPixelIndex, if_neg hoob]
    rw [if_pos (by omega)]
  · simp only [BMP_SetPixelIndex, if_neg hoob]
    rw [if_pos (by omega)]

/-- C8 witness: the depth-gating clauses at concrete bitmaps, including
the successful palette-resolved `BMP_GetPixelRGB` on a depth-8 bitmap. -/
theorem c8_depth_gating_witness :
    BMP_SetPixelRGB (mkCreated 1 1 8) 0 0 1 2 3 = (mkCreated 1 1 8, .BMP_TYPE_MISMATCH) ∧
    BMP_GetPixelRGB (mkCreated 1 1 8) 0 0 (some 0) (some 0) (some 0) =
      BMP_GetPaletteColor (mkCreated 1 1 8)
        ((BMP_GetPixelIndex (mkCreated 1 1 8) 0 0 (some 0)).1.getD 0)
        (some 0) (some 0) (some 0) ∧
    BMP_GetPixelIndex (mkCreated 1 1 24) 0 0 (some 9) = (some 9, .BMP_TYPE_MISMATCH) ∧
    BMP_SetPixelIndex (mkCreated 1 1 32) 0 0 5 = (mkCreated 1 1 32, .BMP_TYPE_MISMATCH) :=
  ⟨((c8_depth_gating (mkCreated 1 1 8) 0 0 (by decide) (by decide)).1 rfl).1 1 2 3,
   ((c8_depth_gating (mkCreated 1 1 8) 0 0 (by decide) (by decide)).1 rfl).2
     (some 0) (some 0) (some 0),
   ((c8_depth_gating (mkCreated 1 1 24) 0 0 (by decide) (by decide)).2 (Or.inl rfl)).1 (some 9),
   ((c8_depth_gating (mkCreated 1 1 32) 0 0 (by decide) (by decide)).2 (Or.inr rfl)).2 5⟩

/-! ## C9 -/

/-- C9: on a depth-8 bitmap, `BMP_SetPaletteColor i r g b` succeeds,
stores the channels in B,G,R order at entry offsets `i*4, i*4+1, i*4+2`,
makes `BMP_GetPaletteColor i` and `BMP_GetPixelRGB` of any pixel whose
stored index byte is `i` return exactly (r,g,b), leaves every other
palette entry unchanged, and touches neither the pixel buffer nor the
header. -/
theorem c9_palette_roundtrip :
    ∀ bmp i r g b x y,
      bmp.header.BitsPerPixel = 8 → x < bmp.header.Width → y < bmp.header.Height →
      ((BMP_SetPaletteColor bmp i r g b).2 = .BMP_OK) ∧
      (palFun (BMP_SetPaletteColor bmp i r g b).1 (i * 4 + 2) = r ∧
       palFun (BMP_SetPaletteColor bmp i r g b).1 (i * 4 + 1) = g ∧
       palFun (BMP_SetPaletteColor bmp i r g b).1 (i * 4 + 0) = b) ∧
      ((BMP_GetPaletteColor (BMP_SetPaletteColor bmp i r g b).1 i
          (some 0) (some 0) (some 0)).1 = (some r, some g, some b)) ∧
      (∀ j (rp gp bp : Option Nat), j ≠ i →
         BMP_GetPaletteColor (BMP_SetPaletteColor bmp i r g b).1 j rp gp bp =
           BMP_GetPaletteColor bmp j rp gp bp) ∧
      ((BMP_SetPaletteColor bmp i r g b).1.data = bmp.data ∧
       (BMP_SetPaletteColor bmp i r g b).1.header = bmp.header) ∧
      ((BMP_GetPixelIndex bmp x y (some 0)).1 = some i →
        (BMP_GetPixelRGB (BMP_SetPaletteColor bmp i r g b).1 x y
           (some 0) (some 0) (some 0)).1 = (some r, some g, some b)) := by
  intro bmp i r g b x y h8 hx hy
  have h8ne : ¬(bmp.header.BitsPerPixel ≠ 8) := by omega
  have hoob : ¬(bmp.header.Width ≤ x ∨ bmp.header.Height ≤ y) := by omega
  have hset : BMP_SetPaletteColor bmp i r g b =
      ({ bmp with palette := some (fun k =>
          if k = i * 4 + 2 then r
          else if k = i * 4 + 1 then g
          else if k = i * 4 then b
          else palFun bmp k) }, .BMP_OK) := by
    simp only [BMP_SetPaletteColor]
    rw [if_neg h8ne]
  have hp2 : palFun (BMP_SetPaletteColor bmp i r g b).1 (i * 4 + 2) = r := by
    rw [hset]
    dsimp only [palFun, Option.getD_some]
    rw [if_pos rfl]
  have hp1 : palFun (BMP_SetPaletteColor bmp i r g b).1 (i * 4 + 1) = g := by
    rw [hset]
    dsimp only [palFun, Option.getD_some]
    rw [if_neg (by omega), if_pos rfl]
  have hp0 : palFun (BMP_SetPaletteColor bmp i r g b).1 (i * 4 + 0) = b := by
    rw [hset]
    dsimp only [palFun, Option.getD_some]
    rw [if_neg (by omega), if_neg (by omega), if_pos (by omega)]
  have hPhdr : (BMP_SetPaletteColor bmp i r g b).1.header = bmp.header := by
    rw [hset]
  refine ⟨by rw [hset], ⟨hp2, hp1, hp0⟩, ?_, ?_, ⟨by rw [hset], hPhdr⟩, ?_⟩
  · simp only [BMP_GetPaletteColor]
    rw [if_neg (by rw [hPhdr]; omega)]
    simp only [Option.map_some']
    rw [hp2, hp1, hp0]
  · intro j rp gp bp hji
    have hq2 : palFun (BMP_SetPaletteColor bmp i r g b).1 (j * 4 + 2) =
        palFun bmp (j * 4 + 2) := by
      rw [hset]
      dsimp only [palFun, Option.getD_some]
      rw [if_neg (by omega), if_neg (by omega), if_neg (by omega)]
    have hq1 : palFun (BMP_SetPaletteColor bmp i r g b).1 (j * 4 + 1) =
        palFun bmp (j * 4 + 1) := by
      rw [hset]
      dsimp only [palFun, Option.getD_some]
      rw [if_neg (by omega), if_neg (by omega), if_neg (by omega)]
    have hq0 : palFun (BMP_SetPaletteColor bmp i r g b).1 (j * 4 + 0) =
        palFun bmp (j * 4 + 0) := by
      rw [hset]
      dsimp only [palFun, Option.getD_some]
      rw [if_neg (by omega), if_neg (by omega), if_neg (by omega)]
    simp only [BMP_GetPaletteColor]
    rw [if_neg (by rw [hPhdr]; omega), if_neg h8ne]
    simp only [hq2, hq1, hq0]
  · intro hidx
    simp only [BMP_GetPixelIndex, if_neg hoob] at hidx
    rw [if_neg h8ne] at hidx
    simp only [Option.map_some', Option.some.injEq] at hidx
    dsimp only [pixOffIdx, bytesPerRowOf] at hidx
    have hrgb : ∀ c, rgbByte (BMP_SetPaletteColor bmp i r g b).1 x y c =
        palFun (BMP_SetPaletteColor bmp i r g b).1 (i * 4 + c) := by
      intro c
      dsimp only [rgbByte, pixOffRGB, bytesPerRowOf]
      rw [hPhdr]
      rw [if_pos h8, h8]
      have hdat : (BMP_SetPaletteColor bmp i r g b).1.data = bmp.data := by rw [hset]
      rw [hdat]
      norm_num
      rw [hidx]
    simp only [BMP_GetPixelRGB]
    rw [if_neg (by rw [hPhdr]; omega)]
    simp only [Option.map_some']
    rw [hrgb 2, hrgb 1, hrgb 0, hp2, hp1, hp0]

/-- C9 witness: `c9_palette_roundtrip` applied to the 1×1 depth-8 bitmap
whose pixel stores index 5, setting palette entry 5 to (10,20,30). -/
theorem c9_palette_roundtrip_witness :
    (BMP_GetPaletteColor
        (BMP_SetPaletteColor ((BMP_SetPixelIndex (mkCreated 1 1 8) 0 0 5).1) 5 10 20 30).1
        5 (some 0) (some 0) (some 0)).1 = (some 10, some 20, some 30) ∧
    (BMP_GetPixelRGB
        (BMP_SetPaletteColor ((BMP_SetPixelIndex (mkCreated 1 1 8) 0 0 5).1) 5 10 20 30).1
        0 0 (some 0) (some 0) (some 0)).1 = (some 10, some 20, some 30) :=
  ⟨(c9_palette_roundtrip ((BMP_SetPixelIndex (mkCreated 1 1 8) 0 0 5).1) 5 10 20 30 0 0
      rfl (by decide) (by decide)).2.2.1,
   (c9_palette_roundtrip ((BMP_SetPixelIndex (mkCreated 1 1 8) 0 0 5).1) 5 10 20 30 0 0
      rfl (by decide) (by decide)).2.2.2.2.2 rfl⟩

/-! ## C10 -/

/-- C10: for in-bounds coordinates the three output-parameter readers
tolerate NULL output pointers: they report `BMP_OK`, leave a NULL (`none`)
pointer unwritten, and write through each non-NULL pointer exactly the
value the all-pointers-present call would produce. -/
theorem c10_null_output_pointers :
    ∀ bmp x y (r g b v : Option Nat), x < bmp.header.Width → y < bmp.header.Height →
      ((BMP_GetPixelRGB bmp x y r g b).2 = .BMP_OK ∧
       (BMP_GetPixelRGB bmp x y r g b).1.1 =
         (if r.isSome then (BMP_GetPixelRGB bmp x y (some 0) (some 0) (some 0)).1.1
          else none) ∧
       (BMP_GetPixelRGB bmp x y r g b).1.2.1 =
         (if g.isSome then (BMP_GetPixelRGB bmp x y (some 0) (some 0) (some 0)).1.2.1
          else none) ∧
       (BMP_GetPixelRGB bmp x y r g b).1.2.2 =
         (if b.isSome then (BMP_GetPixelRGB bmp x y (some 0) (some 0) (some 0)).1.2.2
          else none)) ∧
      (bmp.header.BitsPerPixel = 8 →
        ((BMP_GetPixelIndex bmp x y v).2 = .BMP_OK ∧
         (BMP_GetPixelIndex bmp x y v).1 =
           (if v.isSome then (BMP_GetPixelIndex bmp x y (some 0)).1 else none)) ∧
        (∀ idx, (BMP_GetPaletteColor bmp idx r g b).2 = .BMP_OK ∧
          (BMP_GetPaletteColor bmp idx r g b).1.1 =
            (if r.isSome then
              (BMP_GetPaletteColor bmp idx (some 0) (some 0) (some 0)).1.1 else none) ∧
          (BMP_GetPaletteColor bmp idx r g b).1.2.1 =
            (if g.isSome then
              (BMP_GetPaletteColor bmp idx (some 0) (some 0) (some 0)).1.2.1 else none) ∧
          (BMP_GetPaletteColor bmp idx r g b).1.2.2 =
            (if b.isSome then
              (BMP_GetPaletteColor bmp idx (some 0) (some 0) (some 0)).1.2.2 else none))) := by
  intro bmp x y r g b v hx hy
  have hoob : ¬(bmp.header.Width ≤ x ∨ bmp.header.Height ≤ y) := by omega
  refine ⟨⟨?_, ?_, ?_, ?_⟩, fun h8 => ⟨⟨?_, ?_⟩, fun idx => ⟨?_, ?_, ?_, ?_⟩⟩⟩
  · simp only [BMP_GetPixelRGB, if_neg hoob]
  · simp only [BMP_GetPixelRGB, if_neg hoob]
    cases r <;> rfl
  · simp only [BMP_GetPixelRGB, if_neg hoob]
    cases g <;> rfl
  · simp only [BMP_GetPixelRGB, if_neg hoob]
    cases b <;> rfl
  · have hb8 : ¬(bmp.header.BitsPerPixel ≠ 8) := by omega
    simp only [BMP_GetPixelIndex, if_neg hoob, if_neg hb8]
  · have hb8 : ¬(bmp.header.BitsPerPixel ≠ 8) := by omega
    simp only [BMP_GetPixelIndex, if_neg hoob, if_neg hb8]
    cases v <;> rfl
  · have hb8 : ¬(bmp.header.BitsPerPixel ≠ 8) := by omega
    simp only [BMP_GetPaletteColor, if_neg hb8]
  · have hb8 : ¬(bmp.header.BitsPerPixel ≠ 8) := by omega
    simp only [BMP_GetPaletteColor, if_neg hb8]
    cases r <;> rfl
  · have hb8 : ¬(bmp.header.BitsPerPixel ≠ 8) := by omega
    simp only [BMP_GetPaletteColor, if_neg hb8]
    cases g <;> rfl
  · have hb8 : ¬(bmp.header.BitsPerPixel ≠ 8) := by omega
    simp only [BMP_GetPaletteColor, if_neg hb8]
    cases b <;> rfl

/-- C10 witness: `c10_null_output_pointers` at a 1×1 depth-8 bitmap with
a mix of NULL and non-NULL output pointers. -/
theorem c10_null_output_pointers_witness :
    (BMP_GetPixelRGB (mkCreated 1 1 8) 0 0 none (some 5) none).2 = .BMP_OK ∧
    (BMP_GetPixelRGB (mkCreated 1 1 8) 0 0 none (some 5) none).1.1 =
      (if (none : Option Nat).isSome then
        (BMP_GetPixelRGB (mkCreated 1 1 8) 0 0 (some 0) (some 0) (some 0)).1.1 else none) ∧
    (BMP_GetPixelIndex (mkCreated 1 1 8) 0 0 none).1 =
      (if (none : Option Nat).isSome then
        (BMP_GetPixelIndex (mkCreated 1 1 8) 0 0 (some 0)).1 else none) :=
  ⟨(c10_null_output_pointers (mkCreated 1 1 8) 0 0 none (some 5) none none
      (by decide) (by decide)).1.1,
   (c10_null_output_pointers (mkCreated 1 1 8) 0 0 none (some 5) none none
      (by decide) (by decide)).1.2.1,
   (((c10_null_output_pointers (mkCreated 1 1 8) 0 0 none (some 5) none none
      (by decide) (by decide)).2 rfl).1).2⟩
